import Mathlib

/-!
Shallow embedding of the Product catalog CRUD service.

The HTTP layer is translated from `src/service/routes.py`.  The model layer
(`service/models.py`) is not present in the sources; its operations are
modelled from the specification (section 3 "Data model" and section 4.1
"Product Store") and from how `src/tests/test_models.py` and the routes use
them.  Every such definition carries a doc comment starting with
"Modelled from the spec:".
-/

/-- Modelled from the spec: `service/models.py` is absent from the sources.
The spec declares `category` to be "one of a fixed closed set" and the test
suite and the POST scenario name the member `CLOTHS`; the remaining members
are representative names of the closed set. -/
inductive Category where
  | UNKNOWN
  | CLOTHS
  | FOOD
  | HOUSEWARES
  | AUTOMOTIVE
  | TOOLS
deriving DecidableEq, Repr

/-- Modelled from the spec: the serialization contract renders the category
"as its name" (section 4.1). -/
def Category.toName : Category → String
  | .UNKNOWN => "UNKNOWN"
  | .CLOTHS => "CLOTHS"
  | .FOOD => "FOOD"
  | .HOUSEWARES => "HOUSEWARES"
  | .AUTOMOTIVE => "AUTOMOTIVE"
  | .TOOLS => "TOOLS"

/-- Modelled from the spec: lookup of an enum member by its exact name,
as the Python expression `getattr(Category, name)` does; `none` plays the role of the
`AttributeError` / unrecognized-name outcome. -/
def Category.fromName (n : String) : Option Category :=
  if n = "UNKNOWN" then some .UNKNOWN
  else if n = "CLOTHS" then some .CLOTHS
  else if n = "FOOD" then some .FOOD
  else if n = "HOUSEWARES" then some .HOUSEWARES
  else if n = "AUTOMOTIVE" then some .AUTOMOTIVE
  else if n = "TOOLS" then some .TOOLS
  else none

/-- Modelled from the spec, section 3: Product is
{ id (null until persisted), name, description, price (decimal, exact),
available, category }.  The decimal price is embedded as an exact rational. -/
structure Product where
  id : Option Nat
  name : String
  description : String
  price : ℚ
  available : Bool
  category : Category
deriving DecidableEq, Repr

/-- Modelled from the spec: the persistent store is "a single
table/collection of Product rows keyed by a server-generated unique id"
(section 6); `nextId` is the generator of fresh ids. -/
structure Store where
  rows : List Product
  nextId : Nat
deriving DecidableEq, Repr

/-- A JSON scalar value, the type of a field of an untyped key-value
payload (spec section 4.1, deserialization contract). -/
inductive JsonVal where
  | str : String → JsonVal
  | num : ℚ → JsonVal
  | bool : Bool → JsonVal
  | null : JsonVal
deriving DecidableEq, Repr

/-- An untyped key-value payload (a JSON object). -/
abbrev Payload := List (String × JsonVal)

/-- Lookup of a key in a key-value list (payloads, headers, query args). -/
def lookupKV (l : List (String × String)) (k : String) : Option String :=
  (l.find? (fun kv => kv.1 = k)).map (fun kv => kv.2)

/-- Lookup of a key in a JSON payload. -/
def getVal (data : Payload) (k : String) : Option JsonVal :=
  (data.find? (fun kv => kv.1 = k)).map (fun kv => kv.2)

/-- A payload field read as a string; `none` when absent or of a wrong type. -/
def getStr (data : Payload) (k : String) : Option String :=
  match getVal data k with
  | some (JsonVal.str s) => some s
  | _ => none

/-- A payload field read as a (decimal) number; `none` when absent or of a
wrong type. -/
def getNum (data : Payload) (k : String) : Option ℚ :=
  match getVal data k with
  | some (JsonVal.num q) => some q
  | _ => none

/-- A payload field read as a boolean; `none` when absent or of a wrong
type. -/
def getBool (data : Payload) (k : String) : Option Bool :=
  match getVal data k with
  | some (JsonVal.bool b) => some b
  | _ => none

/-- Modelled from the spec: the error raised by the model layer on a
malformed payload or on `update` without an id (sections 4.1 and 7). -/
inductive DataValidationError where
  | missingOrBadField
  | unknownCategory (n : String)
  | updateWithNoId
deriving DecidableEq, Repr

/-- Modelled from the spec: a freshly constructed `Product()` — transient,
with null id, before `deserialize` fills its fields. -/
def Product.new : Product :=
  { id := none, name := "", description := "", price := 0,
    available := false, category := Category.UNKNOWN }

/-- Modelled from the spec, section 4.1 deserialization contract: converts
an untyped key-value payload into a Product; fails with a
DataValidationError when required keys are absent, types are wrong (e.g.
availability not boolean), or category is not a recognized enum name.  The
id is not taken from the payload. -/
def Product.deserialize (p : Product) (data : Payload) :
    Except DataValidationError Product :=
  match getStr data "name", getStr data "description", getNum data "price",
        getBool data "available", getStr data "category" with
  | some n, some d, some pr, some av, some c =>
    match Category.fromName c with
    | some cat =>
      Except.ok { p with name := n, description := d, price := pr,
                         available := av, category := cat }
    | none => Except.error (DataValidationError.unknownCategory c)
  | _, _, _, _, _ => Except.error DataValidationError.missingOrBadField

/-- Modelled from the spec, section 4.1 serialization contract: converts a
Product into an untyped key-value payload exposing all fields, with category
rendered as its name. -/
def Product.serialize (p : Product) : Payload :=
  [("id", match p.id with
          | none => JsonVal.null
          | some i => JsonVal.num i),
   ("name", JsonVal.str p.name),
   ("description", JsonVal.str p.description),
   ("price", JsonVal.num p.price),
   ("available", JsonVal.bool p.available),
   ("category", JsonVal.str p.category.toName)]

/-- Modelled from the spec: `create(product)` persists a transient product
and assigns it a unique server-generated id (sections 3 and 4.1). -/
def Product.create (p : Product) (s : Store) : Product × Store :=
  let p2 := { p with id := some s.nextId }
  (p2, { rows := s.rows ++ [p2], nextId := s.nextId + 1 })

/-- First row whose id matches, the primary-key lookup underlying
`Product.find`. -/
def findRow : List Product → Nat → Option Product
  | [], _ => none
  | p :: rest, i => if p.id = some i then some p else findRow rest i

/-- Modelled from the spec: `find(id)` returns the product with the given
id, or an absence indicator if none exists (section 4.1). -/
def Product.find (s : Store) (i : Nat) : Option Product :=
  findRow s.rows i

/-- Modelled from the spec: `all()` returns every product (section 4.1). -/
def Product.all (s : Store) : List Product :=
  s.rows

/-- Modelled from the spec: `find_by_name(name)` returns all products whose
name exactly matches, case-sensitively (section 4.1). -/
def Product.find_by_name (s : Store) (n : String) : List Product :=
  s.rows.filter (fun p => p.name = n)

/-- Modelled from the spec: `find_by_category(category)` returns all
products whose category exactly matches the enum member (section 4.1). -/
def Product.find_by_category (s : Store) (c : Category) : List Product :=
  s.rows.filter (fun p => p.category = c)

/-- Modelled from the spec: `find_by_availability(available)` returns all
products whose availability flag matches (section 4.1). -/
def Product.find_by_availability (s : Store) (b : Bool) : List Product :=
  s.rows.filter (fun p => p.available = b)

/-- Uppercasing of an ASCII string, the Python expression `s.upper()`. -/
def asciiUpper (st : String) : String :=
  String.mk (st.data.map Char.toUpper)

/-- Lowercasing of an ASCII string, the Python expression `s.lower()`. -/
def asciiLower (st : String) : String :=
  String.mk (st.data.map Char.toLower)

/-- Modelled from the spec: string inputs to the availability filter
("true"/"false") "must be parsed to boolean" (section 4.1). -/
def parse_bool (st : String) : Bool :=
  asciiLower st = "true"

/-- Modelled from the spec: `find_by_price(price)` returns all products
whose price exactly matches, by decimal comparison (section 4.1). -/
def Product.find_by_price (s : Store) (pr : ℚ) : List Product :=
  s.rows.filter (fun p => p.price = pr)

/-- Modelled from the spec: `update(product)` persists changes to an
existing product identified by id; fails with a validation error if the id
is null (sections 4.1 and 7). -/
def Product.update (p : Product) (s : Store) :
    Except DataValidationError Store :=
  match p.id with
  | none => Except.error DataValidationError.updateWithNoId
  | some i =>
    Except.ok { s with rows := s.rows.map (fun q => if q.id = some i then p else q) }

/-- Modelled from the spec: `delete(product)` removes the product by id
(section 4.1). -/
def Product.delete (p : Product) (s : Store) : Store :=
  { s with rows := s.rows.filter (fun q => q.id ≠ p.id) }

/-- Well-formedness of a store: every row is persisted (non-null id) and
its id is below the fresh-id counter, so `create` always assigns an unused
id. -/
def Store.wf (s : Store) : Bool :=
  s.rows.all fun p =>
    match p.id with
    | some j => decide (j < s.nextId)
    | none => false

/-- An HTTP request as the routes see it: headers, query args, and the
parsed JSON body. -/
structure Request where
  headers : List (String × String)
  args : List (String × String)
  body : Payload
deriving DecidableEq, Repr

/-- The body of an HTTP response: a jsonified string, a jsonified object,
or an array of serialized products. -/
inductive RespBody where
  | str : String → RespBody
  | obj : Payload → RespBody
  | arr : List Payload → RespBody
deriving DecidableEq, Repr

/-- An HTTP response: status code, body, and the optional Location header. -/
structure HttpResponse where
  status : Nat
  body : RespBody
  location : Option String
deriving DecidableEq, Repr

/-- A Python exception escaping a route handler uncaught. -/
inductive PyException where
  | attributeError (attr : String)
  | dataValidationError (e : DataValidationError)
deriving DecidableEq, Repr

/-- Outcome of a route handler: an HTTP response, or an uncaught
exception. -/
inductive RouteResult where
  | resp : HttpResponse → RouteResult
  | raised : PyException → RouteResult
deriving DecidableEq, Repr

/-- Python truthiness of `request.args.get(k)`: `None` and the empty
string are falsy. -/
def truthy : Option String → Bool
  | none => false
  | some v => decide (v ≠ "")

/-- The string behind an `Option String`, with `""` for `None`. -/
def strVal : Option String → String
  | none => ""
  | some v => v

/-- `check_content_type` of routes.py lines 49-65: aborts with 415 when the
Content-Type header is absent or differs from the expected value; `none`
means the check passed. -/
def check_content_type (headers : List (String × String))
    (content_type : String) : Option (Nat × String) :=
  match lookupKV headers "Content-Type" with
  | none => some (415, "Content-Type must be " ++ content_type)
  | some v =>
    if v = content_type then none
    else some (415, "Content-Type must be " ++ content_type)

/-- The 404 body of routes.py lines 144, 169 and 198: the f-string
`"product with id:{id} not found"` interpolates the Python *builtin
function* `id`, not the `product_id` parameter, so it renders this constant
text for every request. -/
def not_found_message : String :=
  "product with id:<built-in function id> not found"

/-- `create_products` of routes.py lines 71-94 (POST /products). -/
def create_products (s : Store) (req : Request) : Store × RouteResult :=
  match check_content_type req.headers "application/json" with
  | some e => (s, RouteResult.resp { status := e.1, body := RespBody.str e.2, location := none })
  | none =>
    match Product.new.deserialize req.body with
    | Except.error e => (s, RouteResult.raised (PyException.dataValidationError e))
    | Except.ok product =>
      let r := Product.create product s
      (r.2, RouteResult.resp { status := 201, body := RespBody.obj r.1.serialize, location := some "/" })

/-- `read_all_products` of routes.py lines 104-128 (GET /products). -/
def read_all_products (s : Store) (req : Request) : RouteResult :=
  let searched_name := lookupKV req.args "name"
  let searched_category := lookupKV req.args "category"
  let searched_availabe := lookupKV req.args "available"
  if truthy searched_name then
    RouteResult.resp
      { status := 200,
        body := RespBody.arr ((Product.find_by_name s (strVal searched_name)).map Product.serialize),
        location := none }
  else if truthy searched_category then
    match Category.fromName (asciiUpper (strVal searched_category)) with
    | none => RouteResult.raised (PyException.attributeError (asciiUpper (strVal searched_category)))
    | some category =>
      RouteResult.resp
        { status := 200,
          body := RespBody.arr ((Product.find_by_category s category).map Product.serialize),
          location := none }
  else if truthy searched_availabe then
    RouteResult.resp
      { status := 200,
        body := RespBody.arr ((Product.find_by_availability s (parse_bool (strVal searched_availabe))).map Product.serialize),
        location := none }
  else
    RouteResult.resp
      { status := 200,
        body := RespBody.arr ((Product.all s).map Product.serialize),
        location := none }

/-- `read_product` of routes.py lines 138-147 (GET /products/id). -/
def read_product (s : Store) (product_id : Nat) : RouteResult :=
  match Product.find s product_id with
  | none => RouteResult.resp { status := 404, body := RespBody.str not_found_message, location := none }
  | some product => RouteResult.resp { status := 200, body := RespBody.obj product.serialize, location := none }

/-- `update_products` of routes.py lines 156-181 (PUT /products/id). -/
def update_products (s : Store) (product_id : Nat) (req : Request) :
    Store × RouteResult :=
  match check_content_type req.headers "application/json" with
  | some e => (s, RouteResult.resp { status := e.1, body := RespBody.str e.2, location := none })
  | none =>
    match Product.find s product_id with
    | none => (s, RouteResult.resp { status := 404, body := RespBody.str not_found_message, location := none })
    | some product =>
      match product.deserialize req.body with
      | Except.error e => (s, RouteResult.raised (PyException.dataValidationError e))
      | Except.ok product2 =>
        match Product.update product2 s with
        | Except.error e => (s, RouteResult.raised (PyException.dataValidationError e))
        | Except.ok s2 =>
          (s2, RouteResult.resp { status := 200, body := RespBody.obj product2.serialize, location := some "/" })

/-- `delete_products` of routes.py lines 192-201 (DELETE /products/id). -/
def delete_products (s : Store) (product_id : Nat) : Store × RouteResult :=
  match Product.find s product_id with
  | none => (s, RouteResult.resp { status := 404, body := RespBody.str not_found_message, location := none })
  | some product =>
    (Product.delete product s, RouteResult.resp { status := 204, body := RespBody.str "", location := none })

/-- The empty store, with ids generated from 1 as a serial column does. -/
def emptyStore : Store := { rows := [], nextId := 1 }

/-- A sample persisted product, the Fedora of the POST scenario. -/
def fedora : Product :=
  { id := some 1, name := "Fedora", description := "A red hat",
    price := (25 : ℚ) / 2, available := true, category := Category.CLOTHS }

/-- A store holding just the Fedora. -/
def fedoraStore : Store := { rows := [fedora], nextId := 2 }

/-- The JSON payload of the POST scenario (no id). -/
def fedoraPayload : Payload :=
  [("name", JsonVal.str "Fedora"),
   ("description", JsonVal.str "A red hat"),
   ("price", JsonVal.num ((25 : ℚ) / 2)),
   ("available", JsonVal.bool true),
   ("category", JsonVal.str "CLOTHS")]

/-- A well-formed JSON POST/PUT request carrying the Fedora payload. -/
def fedoraRequest : Request :=
  { headers := [("Content-Type", "application/json")],
    args := [],
    body := fedoraPayload }

theorem Category.fromName_toName (c : Category) :
    Category.fromName (Category.toName c) = some c := by
  cases c <;> rfl

theorem Category.toName_fromName (n : String) (c : Category)
    (h : Category.fromName n = some c) : Category.toName c = n := by
  unfold Category.fromName at h
  split_ifs at h <;> (cases h; subst_vars; rfl)

theorem truthy_some (v : String) (h : v ≠ "") : truthy (some v) = true := by
  simp [truthy, h]

theorem findRow_append_of_fresh (l l2 : List Product) (i : Nat)
    (h : ∀ p ∈ l, p.id ≠ some i) :
    findRow (l ++ l2) i = findRow l2 i := by
  induction l with
  | nil => rfl
  | cons a t ih =>
    have ha := h a (by simp)
    show (if a.id = some i then some a else findRow (t ++ l2) i) = findRow l2 i
    rw [if_neg ha]
    exact ih (fun p hp => h p (by simp [hp]))

theorem Store.wf_fresh (s : Store) (hwf : s.wf = true) :
    ∀ p ∈ s.rows, p.id ≠ some s.nextId := by
  intro p hp hcontra
  unfold Store.wf at hwf
  have h := List.all_eq_true.mp hwf p hp
  rw [hcontra] at h
  simp at h

/-- Claim C8: deserializing the serialization of any product reproduces its
name, description, price, available and category exactly, the price as an
exact decimal with no rounding. -/
theorem C8_serialize_deserialize_round_trip (p : Product) :
    Product.new.deserialize p.serialize =
      Except.ok { id := none, name := p.name, description := p.description,
                  price := p.price, available := p.available, category := p.category } := by
  obtain ⟨i, n, d, pr, av, c⟩ := p
  cases c <;> rfl

/-- Claim C4: each query-by-field operation returns exactly those products
of `all()` whose corresponding field equals the filter value: membership in
the result is equivalent to membership in `all()` plus a field match. -/
theorem C4_finders_return_exact_matches (s : Store) (nm : String)
    (c : Category) (b : Bool) (pr : ℚ) (p : Product) :
    (p ∈ Product.find_by_name s nm ↔ p ∈ Product.all s ∧ p.name = nm) ∧
    (p ∈ Product.find_by_category s c ↔ p ∈ Product.all s ∧ p.category = c) ∧
    (p ∈ Product.find_by_availability s b ↔ p ∈ Product.all s ∧ p.available = b) ∧
    (p ∈ Product.find_by_price s pr ↔ p ∈ Product.all s ∧ p.price = pr) := by
  simp [Product.find_by_name, Product.find_by_category,
        Product.find_by_availability, Product.find_by_price, Product.all,
        List.mem_filter]

/-- Claim C7: `update` on a product whose id is null always fails with the
validation error and persists nothing. -/
theorem C7_update_null_id_fails (p : Product) (s : Store) (h : p.id = none) :
    Product.update p s = Except.error DataValidationError.updateWithNoId := by
  unfold Product.update
  rw [h]

theorem C7_update_null_id_fails_witness :
    Product.update Product.new emptyStore =
      Except.error DataValidationError.updateWithNoId :=
  C7_update_null_id_fails Product.new emptyStore rfl

/-- Claim C1 counterexample: on the empty store, DELETE /products/1 answers
404 with the not-found message, not 204 with an empty body. -/
theorem C1_delete_nonexistent_is_404 :
    (delete_products emptyStore 1).2 =
      RouteResult.resp ⟨404, RespBody.str not_found_message, none⟩ ∧
    (delete_products emptyStore 1).2 ≠
      RouteResult.resp ⟨204, RespBody.str "", none⟩ := by
  constructor
  · rfl
  · decide

/-- Claim C1 amended: DELETE /products/id returns 204 with an empty body
when a product with that id exists (and removes it); when none exists it
returns 404 with the not-found message and leaves the store unchanged. -/
theorem C1_delete_behavior (s : Store) (i : Nat) :
    (Product.find s i = none →
      delete_products s i =
        (s, RouteResult.resp ⟨404, RespBody.str not_found_message, none⟩)) ∧
    (∀ p, Product.find s i = some p →
      delete_products s i =
        (Product.delete p s, RouteResult.resp ⟨204, RespBody.str "", none⟩)) := by
  constructor
  · intro h
    unfold delete_products
    rw [h]
  · intro p h
    unfold delete_products
    rw [h]

theorem C1_delete_behavior_witness :
    delete_products fedoraStore 1 =
      (Product.delete fedora fedoraStore,
       RouteResult.resp ⟨204, RespBody.str "", none⟩) :=
  (C1_delete_behavior fedoraStore 1).2 fedora rfl

/-- Claim C2: on a store without the requested id, GET and PUT answer 404,
but the body is the constant `not_found_message` — identical for ids 99 and
7 — so the message never names the requested id value (routes.py formats
the Python builtin `id`, not `product_id`). -/
theorem C2_not_found_message_is_constant :
    read_product emptyStore 99 =
      RouteResult.resp ⟨404, RespBody.str not_found_message, none⟩ ∧
    update_products emptyStore 99 fedoraRequest =
      (emptyStore, RouteResult.resp ⟨404, RespBody.str not_found_message, none⟩) ∧
    read_product emptyStore 99 = read_product emptyStore 7 := by
  exact ⟨rfl, rfl, rfl⟩

theorem check_content_type_passes (headers : List (String × String)) (ct : String)
    (h : lookupKV headers "Content-Type" = some ct) :
    check_content_type headers ct = none := by
  unfold check_content_type
  rw [h]
  simp

theorem check_content_type_fails (headers : List (String × String)) (ct : String)
    (h : lookupKV headers "Content-Type" ≠ some ct) :
    check_content_type headers ct = some (415, "Content-Type must be " ++ ct) := by
  unfold check_content_type
  cases hx : lookupKV headers "Content-Type" with
  | none => rfl
  | some v =>
    rw [hx] at h
    have hv : v ≠ ct := fun he => h (by rw [he])
    simp [hv]

theorem deserialize_ok_eval (p : Product) (data : Payload) (nm ds cn : String)
    (pr : ℚ) (av : Bool) (ct : Category)
    (hn : getStr data "name" = some nm)
    (hd : getStr data "description" = some ds)
    (hp : getNum data "price" = some pr)
    (ha : getBool data "available" = some av)
    (hc : getStr data "category" = some cn)
    (hcat : Category.fromName cn = some ct) :
    Product.deserialize p data =
      Except.ok { p with name := nm, description := ds, price := pr,
                         available := av, category := ct } := by
  unfold Product.deserialize
  rw [hn, hd, hp, ha, hc]
  simp [hcat]

/-- Claim C5: when the Content-Type header is absent or is not
application/json, POST /products and PUT /products/id both answer 415 and
leave the store unchanged. -/
theorem C5_content_type_enforced (s : Store) (i : Nat) (req : Request)
    (h : lookupKV req.headers "Content-Type" ≠ some "application/json") :
    create_products s req =
      (s, RouteResult.resp ⟨415, RespBody.str ("Content-Type must be " ++ "application/json"), none⟩) ∧
    update_products s i req =
      (s, RouteResult.resp ⟨415, RespBody.str ("Content-Type must be " ++ "application/json"), none⟩) := by
  have hc := check_content_type_fails req.headers "application/json" h
  constructor
  · unfold create_products
    rw [hc]
  · unfold update_products
    rw [hc]

theorem C5_content_type_enforced_witness :
    create_products emptyStore
        { headers := [("Content-Type", "text/plain")], args := [], body := fedoraPayload } =
      (emptyStore, RouteResult.resp ⟨415, RespBody.str ("Content-Type must be " ++ "application/json"), none⟩) ∧
    update_products emptyStore 1
        { headers := [("Content-Type", "text/plain")], args := [], body := fedoraPayload } =
      (emptyStore, RouteResult.resp ⟨415, RespBody.str ("Content-Type must be " ++ "application/json"), none⟩) :=
  C5_content_type_enforced emptyStore 1
    { headers := [("Content-Type", "text/plain")], args := [], body := fedoraPayload }
    (by decide)

/-- Claim C3: for every valid payload, deserializing it into a fresh
product and calling create assigns a non-null id, and find on that id
returns the created entity, whose name, description, price, available and
category all equal the payload fields. -/
theorem C3_create_assigns_id_and_find_returns_it (s : Store) (data : Payload)
    (nm ds cn : String) (pr : ℚ) (av : Bool) (ct : Category)
    (hwf : s.wf = true)
    (hn : getStr data "name" = some nm)
    (hd : getStr data "description" = some ds)
    (hp : getNum data "price" = some pr)
    (ha : getBool data "available" = some av)
    (hc : getStr data "category" = some cn)
    (hcat : Category.fromName cn = some ct) :
    ∃ q : Product,
      Product.new.deserialize data = Except.ok q ∧
      (Product.create q s).1.id = some s.nextId ∧
      (Product.create q s).1.id ≠ none ∧
      Product.find (Product.create q s).2 s.nextId = some (Product.create q s).1 ∧
      (Product.create q s).1.name = nm ∧
      (Product.create q s).1.description = ds ∧
      (Product.create q s).1.price = pr ∧
      (Product.create q s).1.available = av ∧
      (Product.create q s).1.category = ct := by
  refine ⟨{ id := none, name := nm, description := ds, price := pr,
            available := av, category := ct },
          ?_, rfl, by simp [Product.create], ?_, rfl, rfl, rfl, rfl, rfl⟩
  · exact deserialize_ok_eval Product.new data nm ds cn pr av ct hn hd hp ha hc hcat
  · have hfr := findRow_append_of_fresh s.rows
      [{ id := some s.nextId, name := nm, description := ds, price := pr,
         available := av, category := ct }]
      s.nextId (Store.wf_fresh s hwf)
    simp [Product.find, Product.create, hfr, findRow]

theorem C3_create_assigns_id_and_find_returns_it_witness :
    ∃ q : Product,
      Product.new.deserialize fedoraPayload = Except.ok q ∧
      (Product.create q emptyStore).1.id = some emptyStore.nextId ∧
      (Product.create q emptyStore).1.id ≠ none ∧
      Product.find (Product.create q emptyStore).2 emptyStore.nextId =
        some (Product.create q emptyStore).1 ∧
      (Product.create q emptyStore).1.name = "Fedora" ∧
      (Product.create q emptyStore).1.description = "A red hat" ∧
      (Product.create q emptyStore).1.price = (25 : ℚ) / 2 ∧
      (Product.create q emptyStore).1.available = true ∧
      (Product.create q emptyStore).1.category = Category.CLOTHS :=
  C3_create_assigns_id_and_find_returns_it emptyStore fedoraPayload
    "Fedora" "A red hat" "CLOTHS" ((25 : ℚ) / 2) true Category.CLOTHS
    rfl rfl rfl rfl rfl rfl rfl

/-- Claim C6: POST /products with a valid JSON payload (no id) answers 201
whose body is the serialized created product including the server-assigned
id, with the decimal price and the category name preserved from the
payload, and the response carries a Location header. -/
theorem C6_post_valid_payload_created (s : Store) (req : Request)
    (nm ds cn : String) (pr : ℚ) (av : Bool) (ct : Category)
    (hct : lookupKV req.headers "Content-Type" = some "application/json")
    (hn : getStr req.body "name" = some nm)
    (hd : getStr req.body "description" = some ds)
    (hp : getNum req.body "price" = some pr)
    (ha : getBool req.body "available" = some av)
    (hc : getStr req.body "category" = some cn)
    (hcat : Category.fromName cn = some ct) :
    ∃ q : Product,
      create_products s req =
        ({ rows := s.rows ++ [q], nextId := s.nextId + 1 },
         RouteResult.resp ⟨201, RespBody.obj q.serialize, some "/"⟩) ∧
      q.id = some s.nextId ∧
      getVal q.serialize "id" = some (JsonVal.num ((s.nextId : ℚ))) ∧
      getVal q.serialize "price" = some (JsonVal.num pr) ∧
      getVal q.serialize "category" = some (JsonVal.str cn) := by
  refine ⟨{ id := some s.nextId, name := nm, description := ds, price := pr,
            available := av, category := ct },
          ?_, rfl, rfl, rfl, ?_⟩
  · have h1 := check_content_type_passes req.headers "application/json" hct
    have h2 := deserialize_ok_eval Product.new req.body nm ds cn pr av ct hn hd hp ha hc hcat
    simp [create_products, h1, h2, Product.create]
  · show some (JsonVal.str (Category.toName ct)) = some (JsonVal.str cn)
    rw [Category.toName_fromName cn ct hcat]

theorem C6_post_valid_payload_created_witness :
    ∃ q : Product,
      create_products emptyStore fedoraRequest =
        ({ rows := emptyStore.rows ++ [q], nextId := emptyStore.nextId + 1 },
         RouteResult.resp ⟨201, RespBody.obj q.serialize, some "/"⟩) ∧
      q.id = some emptyStore.nextId ∧
      getVal q.serialize "id" = some (JsonVal.num ((emptyStore.nextId : ℚ))) ∧
      getVal q.serialize "price" = some (JsonVal.num ((25 : ℚ) / 2)) ∧
      getVal q.serialize "category" = some (JsonVal.str "CLOTHS") :=
  C6_post_valid_payload_created emptyStore fedoraRequest
    "Fedora" "A red hat" "CLOTHS" ((25 : ℚ) / 2) true Category.CLOTHS
    rfl rfl rfl rfl rfl rfl rfl

/-- Claim C9: a GET /products request whose category parameter, after
uppercasing, names no member of the Category enum makes the handler raise
an AttributeError that the route does not handle; the request is not
answered with a 400 response (nor any response at all). -/
theorem C9_invalid_category_filter_raises (s : Store) (req : Request) (cn : String)
    (hname : truthy (lookupKV req.args "name") = false)
    (hcat : lookupKV req.args "category" = some cn)
    (hne : cn ≠ "")
    (hbad : Category.fromName (asciiUpper cn) = none) :
    read_all_products s req =
      RouteResult.raised (PyException.attributeError (asciiUpper cn)) ∧
    ∀ r : HttpResponse, r.status = 400 → read_all_products s req ≠ RouteResult.resp r := by
  have h1 : read_all_products s req =
      RouteResult.raised (PyException.attributeError (asciiUpper cn)) := by
    simp [read_all_products, hname, hcat, truthy_some cn hne, strVal, hbad]
  refine ⟨h1, ?_⟩
  intro r _ hcontra
  rw [h1] at hcontra
  exact RouteResult.noConfusion hcontra

theorem C9_invalid_category_filter_raises_witness :
    read_all_products emptyStore { headers := [], args := [("category", "foo")], body := [] } =
      RouteResult.raised (PyException.attributeError (asciiUpper "foo")) ∧
    ∀ r : HttpResponse, r.status = 400 →
      read_all_products emptyStore { headers := [], args := [("category", "foo")], body := [] } ≠
        RouteResult.resp r :=
  C9_invalid_category_filter_raises emptyStore
    { headers := [], args := [("category", "foo")], body := [] } "foo"
    rfl rfl (by decide) (by decide)

/-- Claim C10: at most one filter is applied per GET /products request, with
name taking priority over category and category over available; an
empty-string parameter counts as absent, and with no effective parameter
every product is returned. -/
theorem C10_filter_priority (s : Store) (req : Request) :
    (∀ nm : String, lookupKV req.args "name" = some nm → nm ≠ "" →
      read_all_products s req =
        RouteResult.resp ⟨200, RespBody.arr ((Product.find_by_name s nm).map Product.serialize), none⟩) ∧
    (∀ (cn : String) (ct : Category), truthy (lookupKV req.args "name") = false →
      lookupKV req.args "category" = some cn → cn ≠ "" →
      Category.fromName (asciiUpper cn) = some ct →
      read_all_products s req =
        RouteResult.resp ⟨200, RespBody.arr ((Product.find_by_category s ct).map Product.serialize), none⟩) ∧
    (∀ av : String, truthy (lookupKV req.args "name") = false →
      truthy (lookupKV req.args "category") = false →
      lookupKV req.args "available" = some av → av ≠ "" →
      read_all_products s req =
        RouteResult.resp ⟨200, RespBody.arr ((Product.find_by_availability s (parse_bool av)).map Product.serialize), none⟩) ∧
    (truthy (lookupKV req.args "name") = false →
      truthy (lookupKV req.args "category") = false →
      truthy (lookupKV req.args "available") = false →
      read_all_products s req =
        RouteResult.resp ⟨200, RespBody.arr ((Product.all s).map Product.serialize), none⟩) := by
  refine ⟨?_, ?_, ?_, ?_⟩
  · intro nm hnm hne
    simp [read_all_products, hnm, truthy_some nm hne, strVal]
  · intro cn ct hname hcn hne hct
    simp [read_all_products, hname, hcn, truthy_some cn hne, strVal, hct]
  · intro av hname hcat hav hne
    simp [read_all_products, hname, hcat, hav, truthy_some av hne, strVal]
  · intro hname hcat hav
    simp [read_all_products, hname, hcat, hav]

theorem C10_filter_priority_witness :
    read_all_products fedoraStore
        { headers := [], args := [("name", "Fedora"), ("category", "FOOD"), ("available", "false")], body := [] } =
      RouteResult.resp ⟨200, RespBody.arr ((Product.find_by_name fedoraStore "Fedora").map Product.serialize), none⟩ :=
  (C10_filter_priority fedoraStore
    { headers := [], args := [("name", "Fedora"), ("category", "FOOD"), ("available", "false")], body := [] }).1
    "Fedora" rfl (by decide)
